import Mathlib

/-!
Shallow embedding of `src/dojima/brokers/ledgerx.py`: the `LedgerX` REST
client class.  Python values that can appear in parameter mappings and
parsed JSON responses are modelled by `PyVal` (Python `None` is
`PyVal.none`); a Python `dict` is an association list of string keys.
The network is modelled as an oracle: each method additionally receives
the `HTTPResponse` that `self._session.request(...)` returns, and the
embedding makes the outgoing request observable by returning the
`SentRequest` that was issued alongside the value the Python method
returns.  Methods thread the client object through so that mutation (or
its absence) of `self` is observable.
-/

/-- Python values occurring in parameter mappings and parsed JSON:
`None`, booleans, integers, strings, lists and dicts.  Other argument
types of the client (e.g. `datetime`) are opaque to the client code,
which only ever stores them in dicts; any `PyVal` may stand for them. -/
inductive PyVal where
  | none : PyVal
  | bool : Bool → PyVal
  | int : Int → PyVal
  | str : String → PyVal
  | list : List PyVal → PyVal
  | dict : List (String × PyVal) → PyVal
deriving Repr

/-- Python's `d.get(key)` on a dict: the stored value when the key is
present, else `None`.  (In Python a stored `None` and an absent key give
the same result, which this models exactly.)  The client only ever calls
`.get` on dict results; on a non-dict the embedding returns `None` as a
junk value. -/
def PyVal.get (v : PyVal) (key : String) : PyVal :=
  match v with
  | .dict fields =>
    match fields.lookup key with
    | Option.some x => x
    | Option.none => .none
  | _ => .none

/-- Python's `str.upper()` restricted to ASCII, which is all the client
uses it for (HTTP method names). -/
def pyUpper (s : String) : String :=
  String.mk (s.data.map Char.toUpper)

/-- The connection handle `requests.Session()`, identified only by object
identity (the client never inspects it). -/
structure Session where
  sid : Nat
deriving Repr, DecidableEq

/-- The client object: the state bound by `LedgerX.__init__`
(`self._jwt_token = jwt_token; self._session = Session()`). -/
structure LedgerX where
  _jwt_token : String
  _session : Session
deriving Repr, DecidableEq

/-- The keyword-argument dict `opts` built by `_request` and passed to
`self._session.request`.  `params`/`json` are `Option.some d` when
`_request` put the key into `opts` with value `d` (which may itself be
the Python `None` that `data` defaults to), and `Option.none` when the
key is absent from `opts`. -/
structure Opts where
  headers : List (String × String)
  allow_redirects : Bool
  params : Option PyVal
  json : Option PyVal
deriving Repr

/-- The observable outgoing HTTP request:
`self._session.request(method, url, **opts)`. -/
structure SentRequest where
  method : String
  url : String
  opts : Opts
deriving Repr

/-- The response the session returns: its status code, its body text,
and the value `response.json()` parses to when the body is non-empty. -/
structure HTTPResponse where
  status_code : Nat
  text : String
  parsed : PyVal
deriving Repr

/-- Lines 369-379 of `_request`: build the `headers` dict and the `opts`
dict, putting `data` under `"params"` when `method.upper()` is in
`["GET", "DELETE"]` and under `"json"` otherwise. -/
def buildOpts (jwt_token : String) (method : String) (data : PyVal) : Opts :=
  let headers := [("Authorization", "JWT " ++ jwt_token)]
  if pyUpper method ∈ ["GET", "DELETE"] then
    { headers := headers, allow_redirects := false,
      params := Option.some data, json := Option.none }
  else
    { headers := headers, allow_redirects := false,
      params := Option.none, json := Option.some data }

/-- The requests library's `Response.raise_for_status()` raises `HTTPError` exactly
when the status code is a client error (4xx) or server error (5xx). -/
def raisesHTTPError (status_code : Nat) : Prop :=
  400 ≤ status_code ∧ status_code < 600

instance (s : Nat) : Decidable (raisesHTTPError s) := by
  unfold raisesHTTPError; infer_instance

/-- Lines 383-393 of `_request`: `raise_for_status` in a `try` block,
returning `{}` when the `HTTPError` is caught (after printing it);
otherwise `response.json()` when the body is non-empty, else the
synthesized payload with the status code. -/
def handleResponse (response : HTTPResponse) : PyVal :=
  if raisesHTTPError response.status_code then
    .dict []
  else if response.text ≠ "" then
    response.parsed
  else
    .dict [("data", .dict [("status", .int response.status_code)])]

/-- Dispatcher `LedgerX._request(self, method, url, data=None)`: builds `opts`,
issues the request and post-processes the response; the embedding
returns the (unchanged) client object, the request that went out and the
value the Python method returns. -/
def LedgerX._request (c : LedgerX) (method : String) (url : String)
    (data : PyVal) (response : HTTPResponse) :
    LedgerX × SentRequest × PyVal :=
  (c,
   { method := method, url := url,
     opts := buildOpts c._jwt_token method data },
   handleResponse response)

/-- Method `LedgerX.get_contracts` (lines 21-64): assembles the eight-key
parameter mapping and returns `response.get("data")`. -/
def LedgerX.get_contracts (c : LedgerX)
    (active contract_type derivative_type asset : PyVal)
    (before_ts after_ts limit offset : PyVal)
    (resp : HTTPResponse) : LedgerX × SentRequest × PyVal :=
  let data := PyVal.dict
    [("active", active),
     ("contract_type", contract_type),
     ("derivative_type", derivative_type),
     ("asset", asset),
     ("before_ts", before_ts),
     ("after_ts", after_ts),
     ("limit", limit),
     ("offset", offset)]
  let r := c._request "GET" "https://api.ledgerx.com/trading/contracts" data resp
  (r.1, r.2.1, r.2.2.get "data")

/-- Method `LedgerX.get_traded_contracts` (lines 66-97). -/
def LedgerX.get_traded_contracts (c : LedgerX)
    (derivative_type asset limit offset : PyVal)
    (resp : HTTPResponse) : LedgerX × SentRequest × PyVal :=
  let data := PyVal.dict
    [("derivative_type", derivative_type),
     ("asset", asset),
     ("limit", limit),
     ("offset", offset)]
  let r := c._request "GET" "https://api.ledgerx.com/trading/contracts/traded" data resp
  (r.1, r.2.1, r.2.2.get "data")

/-- Method `LedgerX.get_contract_details` (lines 99-114): no `data` argument,
so `_request` receives its default `None`. -/
def LedgerX.get_contract_details (c : LedgerX) (contract_id : String)
    (resp : HTTPResponse) : LedgerX × SentRequest × PyVal :=
  let r := c._request "GET"
    ("https://api.ledgerx.com/trading/contracts/" ++ contract_id)
    PyVal.none resp
  (r.1, r.2.1, r.2.2.get "data")

/-- Method `LedgerX.get_contract_position` (lines 116-131). -/
def LedgerX.get_contract_position (c : LedgerX) (contract_id : String)
    (resp : HTTPResponse) : LedgerX × SentRequest × PyVal :=
  let r := c._request "GET"
    ("https://api.ledgerx.com/trading/contracts/" ++ contract_id ++ "/position")
    PyVal.none resp
  (r.1, r.2.1, r.2.2.get "data")

/-- Method `LedgerX.get_contract_ticker` (lines 133-167). -/
def LedgerX.get_contract_ticker (c : LedgerX) (contract_id : String)
    (time asset : PyVal)
    (resp : HTTPResponse) : LedgerX × SentRequest × PyVal :=
  let data := PyVal.dict [("time", time), ("asset", asset)]
  let r := c._request "GET"
    ("https://api.ledgerx.com/trading/contracts/" ++ contract_id ++ "/ticker")
    data resp
  (r.1, r.2.1, r.2.2.get "data")

/-- Method `LedgerX.get_positions` (lines 169-193). -/
def LedgerX.get_positions (c : LedgerX) (limit offset : PyVal)
    (resp : HTTPResponse) : LedgerX × SentRequest × PyVal :=
  let data := PyVal.dict [("limit", limit), ("offset", offset)]
  let r := c._request "GET" "https://api.ledgerx.com/trading/positions" data resp
  (r.1, r.2.1, r.2.2.get "data")

/-- Method `LedgerX.get_trades_for_position` (lines 195-211). -/
def LedgerX.get_trades_for_position (c : LedgerX) (contract_id : String)
    (resp : HTTPResponse) : LedgerX × SentRequest × PyVal :=
  let r := c._request "GET"
    ("https://api.ledgerx.com/trading/positions/" ++ contract_id ++ "/trades")
    PyVal.none resp
  (r.1, r.2.1, r.2.2.get "data")

/-- Method `LedgerX.get_open_orders` (lines 213-224). -/
def LedgerX.get_open_orders (c : LedgerX)
    (resp : HTTPResponse) : LedgerX × SentRequest × PyVal :=
  let r := c._request "GET" "https://trade.ledgerx.com/api/open-orders"
    PyVal.none resp
  (r.1, r.2.1, r.2.2.get "data")

/-- Method `LedgerX.create_order` (lines 226-270). -/
def LedgerX.create_order (c : LedgerX)
    (contract_id order_type is_ask size price volatile swap_purpose : PyVal)
    (resp : HTTPResponse) : LedgerX × SentRequest × PyVal :=
  let data := PyVal.dict
    [("contract_id", contract_id),
     ("order_type", order_type),
     ("is_ask", is_ask),
     ("size", size),
     ("price", price),
     ("volatile", volatile),
     ("swap_purpose", swap_purpose)]
  let r := c._request "POST" "https://trade.ledgerx.com/api/orders" data resp
  (r.1, r.2.1, r.2.2.get "data")

/-- Method `LedgerX.delete_all_orders` (lines 272-284). -/
def LedgerX.delete_all_orders (c : LedgerX)
    (resp : HTTPResponse) : LedgerX × SentRequest × PyVal :=
  let r := c._request "DELETE" "https://trade.ledgerx.com/api/orders"
    PyVal.none resp
  (r.1, r.2.1, r.2.2.get "data")

/-- Method `LedgerX.delete_single_order` (lines 286-306). -/
def LedgerX.delete_single_order (c : LedgerX) (mid : String)
    (contract_id : PyVal)
    (resp : HTTPResponse) : LedgerX × SentRequest × PyVal :=
  let data := PyVal.dict [("contract_id", contract_id)]
  let r := c._request "DELETE"
    ("https://trade.ledgerx.com/api/orders/" ++ mid) data resp
  (r.1, r.2.1, r.2.2.get "data")

/-- Method `LedgerX.patch_order` (lines 308-335): cancel-and-replace, issued
with method `"DELETE"` to `/api/orders/{mid}/edit`. -/
def LedgerX.patch_order (c : LedgerX) (mid : String)
    (contract_id price size : PyVal)
    (resp : HTTPResponse) : LedgerX × SentRequest × PyVal :=
  let data := PyVal.dict
    [("contract_id", contract_id), ("price", price), ("size", size)]
  let r := c._request "DELETE"
    ("https://trade.ledgerx.com/api/orders/" ++ mid ++ "/edit") data resp
  (r.1, r.2.1, r.2.2.get "data")

/-- Method `LedgerX.get_current_book_state` (lines 337-356). -/
def LedgerX.get_current_book_state (c : LedgerX) (contract_id : String)
    (resp : HTTPResponse) : LedgerX × SentRequest × PyVal :=
  let r := c._request "GET"
    ("https://trade.ledgerx.com/api/book-states/" ++ contract_id)
    PyVal.none resp
  (r.1, r.2.1, r.2.2.get "data")

/-! ### Helper lemmas shared by the verification below -/

/-- Both branches of `_request`'s placement `if` install the same
`Authorization` header. -/
theorem buildOpts_headers (jwt_token method : String) (data : PyVal) :
    (buildOpts jwt_token method data).headers
      = [("Authorization", "JWT " ++ jwt_token)] := by
  unfold buildOpts
  split <;> rfl

/-- Both branches of `_request`'s placement `if` set
`allow_redirects` to `False`. -/
theorem buildOpts_allow_redirects (jwt_token method : String) (data : PyVal) :
    (buildOpts jwt_token method data).allow_redirects = false := by
  unfold buildOpts
  split <;> rfl

/-- When `raise_for_status` raises, `_request` catches the error and
returns the empty dict. -/
theorem handleResponse_error (r : HTTPResponse)
    (h : raisesHTTPError r.status_code) :
    handleResponse r = PyVal.dict [] := by
  unfold handleResponse
  simp [h]

/-- When the status is below 400 and the body is non-empty, `_request`
returns the parsed JSON body. -/
theorem handleResponse_success (r : HTTPResponse)
    (hs : r.status_code < 400) (ht : r.text ≠ "") :
    handleResponse r = r.parsed := by
  unfold handleResponse
  have h : ¬ raisesHTTPError r.status_code := by
    unfold raisesHTTPError; omega
  simp [h, ht]

/-- A dict without a `"data"` key gives `None` under `.get("data")`. -/
theorem get_data_of_lookup_none (fields : List (String × PyVal))
    (h : fields.lookup "data" = Option.none) :
    (PyVal.dict fields).get "data" = PyVal.none := by
  unfold PyVal.get
  simp [h]

/-! ### The claims -/

/-- Claim C1: for every call to `_request(method, url, data)`, if
`method.upper()` is `"GET"` or `"DELETE"` the mapping `data` is placed
in the query-string parameters (`opts["params"]`) and the JSON-body key
is absent; otherwise (in particular for `"POST"` and `"PUT"`) `data` is
placed in the JSON body (`opts["json"]`) and the query-string key is
absent — exactly one placement per call. -/
theorem request_verb_placement (c : LedgerX) (method url : String)
    (data : PyVal) (resp : HTTPResponse) :
    ((pyUpper method = "GET" ∨ pyUpper method = "DELETE") →
      (c._request method url data resp).2.1.opts.params = Option.some data ∧
      (c._request method url data resp).2.1.opts.json = Option.none) ∧
    ((pyUpper method ≠ "GET" ∧ pyUpper method ≠ "DELETE") →
      (c._request method url data resp).2.1.opts.json = Option.some data ∧
      (c._request method url data resp).2.1.opts.params = Option.none) := by
  unfold LedgerX._request buildOpts
  constructor
  · rintro (h | h) <;> simp [h]
  · rintro ⟨h1, h2⟩
    simp [h1, h2]

/-- Witness for C1 at the concrete methods `"get"` and `"post"`. -/
theorem request_verb_placement_witness :
    ((LedgerX.mk "tok" ⟨0⟩)._request "get" "u" (PyVal.int 1)
        ⟨200, "", PyVal.none⟩).2.1.opts.params = Option.some (PyVal.int 1) ∧
    ((LedgerX.mk "tok" ⟨0⟩)._request "post" "u" (PyVal.int 1)
        ⟨200, "", PyVal.none⟩).2.1.opts.json = Option.some (PyVal.int 1) :=
  ⟨((request_verb_placement (LedgerX.mk "tok" ⟨0⟩) "get" "u" (PyVal.int 1)
      ⟨200, "", PyVal.none⟩).1 (Or.inl (by decide))).1,
   ((request_verb_placement (LedgerX.mk "tok" ⟨0⟩) "post" "u" (PyVal.int 1)
      ⟨200, "", PyVal.none⟩).2 ⟨by decide, by decide⟩).1⟩

/-- Claim C2, counterexample: a 301 response is not 2xx, yet `_request`
does not return the empty mapping for it — `raise_for_status` only
raises for 4xx/5xx, and with redirects disabled a 3xx response reaches
the success path (here, the empty-body branch synthesizing a payload). -/
theorem request_non2xx_not_always_empty :
    ¬ (200 ≤ 301 ∧ 301 ≤ 299) ∧
    ((LedgerX.mk "tok" ⟨0⟩)._request "GET" "u" PyVal.none
        ⟨301, "", PyVal.none⟩).2.2
      = PyVal.dict [("data", PyVal.dict [("status", PyVal.int 301)])] ∧
    PyVal.dict [("data", PyVal.dict [("status", PyVal.int 301)])]
      ≠ PyVal.dict [] := by
  refine ⟨by omega, rfl, ?_⟩
  intro h
  simp at h

/-- Claim C2, amended: for every call to `_request`, when the response
status is 4xx or 5xx (the codes for which `raise_for_status` raises
`HTTPError`), the error is caught inside `_request` and an empty mapping
is returned to the caller; other non-2xx codes (e.g. 3xx, reachable
because redirects are disabled) raise nothing and follow the success
path. -/
theorem request_http_error_empty (c : LedgerX) (method url : String)
    (data : PyVal) (resp : HTTPResponse)
    (h : raisesHTTPError resp.status_code) :
    (c._request method url data resp).2.2 = PyVal.dict [] :=
  handleResponse_error resp h

/-- Witness for the amended C2 at status 404. -/
theorem request_http_error_empty_witness :
    raisesHTTPError 404 ∧
    ((LedgerX.mk "tok" ⟨0⟩)._request "GET" "u" PyVal.none
        ⟨404, "oops", PyVal.none⟩).2.2 = PyVal.dict [] :=
  ⟨by decide,
   request_http_error_empty (LedgerX.mk "tok" ⟨0⟩) "GET" "u" PyVal.none
     ⟨404, "oops", PyVal.none⟩ (by decide)⟩

/-- Claim C4: for every `_request` call whose response is 2xx with an
empty body, `_request` returns the synthesized payload
`{"data": {"status": s}}` (no JSON parsing is attempted), and the
calling endpoint method (here `delete_all_orders`, which unwraps
`"data"`) returns `{"status": s}`. -/
theorem request_empty_body_synthesizes (c : LedgerX) (method url : String)
    (data : PyVal) (resp : HTTPResponse)
    (h2xx : 200 ≤ resp.status_code ∧ resp.status_code ≤ 299)
    (hempty : resp.text = "") :
    (c._request method url data resp).2.2
      = PyVal.dict
          [("data", PyVal.dict [("status", PyVal.int resp.status_code)])] ∧
    (c.delete_all_orders resp).2.2
      = PyVal.dict [("status", PyVal.int resp.status_code)] := by
  have h : ¬ raisesHTTPError resp.status_code := by
    unfold raisesHTTPError; omega
  have hmain : handleResponse resp
      = PyVal.dict
          [("data", PyVal.dict [("status", PyVal.int resp.status_code)])] := by
    unfold handleResponse
    simp [h, hempty]
  constructor
  · exact hmain
  · show (handleResponse resp).get "data"
        = PyVal.dict [("status", PyVal.int resp.status_code)]
    rw [hmain]
    rfl

/-- Witness for C4 at status 204 with an empty body. -/
theorem request_empty_body_synthesizes_witness :
    (200 ≤ 204 ∧ 204 ≤ 299) ∧ ("" : String) = "" ∧
    ((LedgerX.mk "tok" ⟨0⟩)._request "DELETE" "u" PyVal.none
        ⟨204, "", PyVal.none⟩).2.2
      = PyVal.dict [("data", PyVal.dict [("status", PyVal.int 204)])] ∧
    ((LedgerX.mk "tok" ⟨0⟩).delete_all_orders ⟨204, "", PyVal.none⟩).2.2
      = PyVal.dict [("status", PyVal.int 204)] :=
  ⟨by omega, rfl,
   (request_empty_body_synthesizes (LedgerX.mk "tok" ⟨0⟩) "DELETE" "u"
      PyVal.none ⟨204, "", PyVal.none⟩ (by decide) rfl).1,
   (request_empty_body_synthesizes (LedgerX.mk "tok" ⟨0⟩) "DELETE" "u"
      PyVal.none ⟨204, "", PyVal.none⟩ (by decide) rfl).2⟩

/-- Claim C3, counterexample: a 301 response (non-2xx, reachable since
redirects are disabled and `raise_for_status` only raises for 4xx/5xx)
with a body carrying a `"data"` field makes `get_contracts` return that
field's value, which differs from the `None` returned for every 2xx
response whose parsed object lacks a `"data"` key — so a non-2xx result
is not always indistinguishable as claimed. -/
theorem get_contracts_non2xx_distinguishable :
    ¬ (200 ≤ 301 ∧ 301 ≤ 299) ∧
    ((LedgerX.mk "tok" ⟨0⟩).get_contracts PyVal.none PyVal.none PyVal.none
        PyVal.none PyVal.none PyVal.none PyVal.none PyVal.none
        ⟨301, "body", PyVal.dict [("data", PyVal.int 7)]⟩).2.2
      = PyVal.int 7 ∧
    (200 ≤ 200 ∧ 200 ≤ 299) ∧
    (([] : List (String × PyVal)).lookup "data" = Option.none) ∧
    ((LedgerX.mk "tok" ⟨0⟩).get_contracts PyVal.none PyVal.none PyVal.none
        PyVal.none PyVal.none PyVal.none PyVal.none PyVal.none
        ⟨200, "body", PyVal.dict []⟩).2.2 = PyVal.none ∧
    PyVal.int 7 ≠ PyVal.none := by
  refine ⟨by omega, rfl, by omega, rfl, rfl, ?_⟩
  intro h
  simp at h

/-- Claim C3, amended: for every endpoint method, the value returned
when the response is a 4xx/5xx HTTP error equals the value returned for
any 2xx response with a non-empty body whose parsed JSON object lacks a
`"data"` key (both are `None`), so callers cannot distinguish an HTTP
error from a legitimately empty dataset. -/
theorem endpoints_mask_http_errors (c : LedgerX)
    (a1 a2 a3 a4 a5 a6 a7 a8 : PyVal) (cid mid : String)
    (e s : HTTPResponse) (fields : List (String × PyVal))
    (he : raisesHTTPError e.status_code)
    (hs : 200 ≤ s.status_code ∧ s.status_code ≤ 299)
    (ht : s.text ≠ "")
    (hobj : s.parsed = PyVal.dict fields)
    (hnd : fields.lookup "data" = Option.none) :
    (c.get_contracts a1 a2 a3 a4 a5 a6 a7 a8 e).2.2
      = (c.get_contracts a1 a2 a3 a4 a5 a6 a7 a8 s).2.2 ∧
    (c.get_traded_contracts a1 a2 a3 a4 e).2.2
      = (c.get_traded_contracts a1 a2 a3 a4 s).2.2 ∧
    (c.get_contract_details cid e).2.2 = (c.get_contract_details cid s).2.2 ∧
    (c.get_contract_position cid e).2.2 = (c.get_contract_position cid s).2.2 ∧
    (c.get_contract_ticker cid a1 a2 e).2.2
      = (c.get_contract_ticker cid a1 a2 s).2.2 ∧
    (c.get_positions a1 a2 e).2.2 = (c.get_positions a1 a2 s).2.2 ∧
    (c.get_trades_for_position cid e).2.2
      = (c.get_trades_for_position cid s).2.2 ∧
    (c.get_open_orders e).2.2 = (c.get_open_orders s).2.2 ∧
    (c.create_order a1 a2 a3 a4 a5 a6 a7 e).2.2
      = (c.create_order a1 a2 a3 a4 a5 a6 a7 s).2.2 ∧
    (c.delete_all_orders e).2.2 = (c.delete_all_orders s).2.2 ∧
    (c.delete_single_order mid a1 e).2.2
      = (c.delete_single_order mid a1 s).2.2 ∧
    (c.patch_order mid a1 a2 a3 e).2.2 = (c.patch_order mid a1 a2 a3 s).2.2 ∧
    (c.get_current_book_state cid e).2.2
      = (c.get_current_book_state cid s).2.2 := by
  have hE : (handleResponse e).get "data" = PyVal.none := by
    rw [handleResponse_error e he]
    rfl
  have hS : (handleResponse s).get "data" = PyVal.none := by
    rw [handleResponse_success s (by omega) ht, hobj]
    exact get_data_of_lookup_none fields hnd
  refine ⟨?_, ?_, ?_, ?_, ?_, ?_, ?_, ?_, ?_, ?_, ?_, ?_, ?_⟩ <;>
    (show (handleResponse e).get "data" = (handleResponse s).get "data"
     rw [hE, hS])

/-- Witness for the amended C3: a 500 error and a 2xx body without
`"data"` yield the same `get_contracts` result. -/
theorem endpoints_mask_http_errors_witness :
    raisesHTTPError 500 ∧
    ((LedgerX.mk "tok" ⟨0⟩).get_contracts PyVal.none PyVal.none PyVal.none
        PyVal.none PyVal.none PyVal.none PyVal.none PyVal.none
        ⟨500, "err", PyVal.none⟩).2.2
      = ((LedgerX.mk "tok" ⟨0⟩).get_contracts PyVal.none PyVal.none
          PyVal.none PyVal.none PyVal.none PyVal.none PyVal.none PyVal.none
          ⟨200, "ok", PyVal.dict [("x", PyVal.int 1)]⟩).2.2 :=
  ⟨by decide,
   (endpoints_mask_http_errors (LedgerX.mk "tok" ⟨0⟩) PyVal.none PyVal.none
      PyVal.none PyVal.none PyVal.none PyVal.none PyVal.none PyVal.none
      "1" "m" ⟨500, "err", PyVal.none⟩ ⟨200, "ok", PyVal.dict [("x", PyVal.int 1)]⟩
      [("x", PyVal.int 1)] (by decide) (by decide) (by decide) rfl rfl).1⟩

/-- Claim C5: every public endpoint method returns exactly
`response.get("data")` applied to the mapping returned by the shared
dispatcher `_request` (called with the endpoint's own method, URL and
parameter mapping), with no further transformation; and `.get("data")`
on a dispatcher result lacking a `"data"` key is `None` (the first
conjunct). -/
theorem endpoints_unwrap_data (c : LedgerX)
    (a1 a2 a3 a4 a5 a6 a7 a8 : PyVal) (cid mid : String)
    (resp : HTTPResponse) :
    (∀ fields : List (String × PyVal), fields.lookup "data" = Option.none →
      (PyVal.dict fields).get "data" = PyVal.none) ∧
    (c.get_contracts a1 a2 a3 a4 a5 a6 a7 a8 resp).2.2
      = ((c._request "GET" "https://api.ledgerx.com/trading/contracts"
          (PyVal.dict
            [("active", a1), ("contract_type", a2), ("derivative_type", a3),
             ("asset", a4), ("before_ts", a5), ("after_ts", a6),
             ("limit", a7), ("offset", a8)]) resp).2.2).get "data" ∧
    (c.get_traded_contracts a1 a2 a3 a4 resp).2.2
      = ((c._request "GET" "https://api.ledgerx.com/trading/contracts/traded"
          (PyVal.dict
            [("derivative_type", a1), ("asset", a2), ("limit", a3),
             ("offset", a4)]) resp).2.2).get "data" ∧
    (c.get_contract_details cid resp).2.2
      = ((c._request "GET"
          ("https://api.ledgerx.com/trading/contracts/" ++ cid)
          PyVal.none resp).2.2).get "data" ∧
    (c.get_contract_position cid resp).2.2
      = ((c._request "GET"
          ("https://api.ledgerx.com/trading/contracts/" ++ cid ++ "/position")
          PyVal.none resp).2.2).get "data" ∧
    (c.get_contract_ticker cid a1 a2 resp).2.2
      = ((c._request "GET"
          ("https://api.ledgerx.com/trading/contracts/" ++ cid ++ "/ticker")
          (PyVal.dict [("time", a1), ("asset", a2)]) resp).2.2).get "data" ∧
    (c.get_positions a1 a2 resp).2.2
      = ((c._request "GET" "https://api.ledgerx.com/trading/positions"
          (PyVal.dict [("limit", a1), ("offset", a2)]) resp).2.2).get "data" ∧
    (c.get_trades_for_position cid resp).2.2
      = ((c._request "GET"
          ("https://api.ledgerx.com/trading/positions/" ++ cid ++ "/trades")
          PyVal.none resp).2.2).get "data" ∧
    (c.get_open_orders resp).2.2
      = ((c._request "GET" "https://trade.ledgerx.com/api/open-orders"
          PyVal.none resp).2.2).get "data" ∧
    (c.create_order a1 a2 a3 a4 a5 a6 a7 resp).2.2
      = ((c._request "POST" "https://trade.ledgerx.com/api/orders"
          (PyVal.dict
            [("contract_id", a1), ("order_type", a2), ("is_ask", a3),
             ("size", a4), ("price", a5), ("volatile", a6),
             ("swap_purpose", a7)]) resp).2.2).get "data" ∧
    (c.delete_all_orders resp).2.2
      = ((c._request "DELETE" "https://trade.ledgerx.com/api/orders"
          PyVal.none resp).2.2).get "data" ∧
    (c.delete_single_order mid a1 resp).2.2
      = ((c._request "DELETE"
          ("https://trade.ledgerx.com/api/orders/" ++ mid)
          (PyVal.dict [("contract_id", a1)]) resp).2.2).get "data" ∧
    (c.patch_order mid a1 a2 a3 resp).2.2
      = ((c._request "DELETE"
          ("https://trade.ledgerx.com/api/orders/" ++ mid ++ "/edit")
          (PyVal.dict [("contract_id", a1), ("price", a2), ("size", a3)])
          resp).2.2).get "data" ∧
    (c.get_current_book_state cid resp).2.2
      = ((c._request "GET"
          ("https://trade.ledgerx.com/api/book-states/" ++ cid)
          PyVal.none resp).2.2).get "data" :=
  ⟨fun fields h => get_data_of_lookup_none fields h,
   rfl, rfl, rfl, rfl, rfl, rfl, rfl, rfl, rfl, rfl, rfl, rfl, rfl⟩

/-- Witness for C5: a dispatcher result with no `"data"` key unwraps to
`None` for the calling endpoint. -/
theorem endpoints_unwrap_data_witness :
    (([] : List (String × PyVal)).lookup "data" = Option.none) ∧
    (PyVal.dict []).get "data" = PyVal.none :=
  ⟨rfl,
   (endpoints_unwrap_data (LedgerX.mk "tok" ⟨0⟩) PyVal.none PyVal.none
      PyVal.none PyVal.none PyVal.none PyVal.none PyVal.none PyVal.none
      "1" "m" ⟨200, "", PyVal.none⟩).1 [] rfl⟩

/-- Claim C6: `get_contracts` hands the dispatcher a mapping with
exactly the eight keys `active`, `contract_type`, `derivative_type`,
`asset`, `before_ts`, `after_ts`, `limit`, `offset`, each bound verbatim
to the corresponding argument; `None`-valued entries are passed through
unchanged (the equality holds for all argument values, including
`PyVal.none`), and that mapping is what reaches the request's
query-string parameters. -/
theorem get_contracts_param_mapping (c : LedgerX)
    (active contract_type derivative_type asset : PyVal)
    (before_ts after_ts limit offset : PyVal) (resp : HTTPResponse) :
    (c.get_contracts active contract_type derivative_type asset
        before_ts after_ts limit offset resp).2.1.opts.params
      = Option.some (PyVal.dict
          [("active", active),
           ("contract_type", contract_type),
           ("derivative_type", derivative_type),
           ("asset", asset),
           ("before_ts", before_ts),
           ("after_ts", after_ts),
           ("limit", limit),
           ("offset", offset)]) := rfl

/-- Claim C7: every call to `_request` on a client holding `jwt_token`
sends an `Authorization` header equal to `"JWT "` concatenated with the
token, and the same holds for the request issued by every endpoint
method, since all delegate to `_request`. -/
theorem request_auth_header (c : LedgerX) (method url : String)
    (data : PyVal) (a1 a2 a3 a4 a5 a6 a7 a8 : PyVal) (cid mid : String)
    (resp : HTTPResponse) :
    (c._request method url data resp).2.1.opts.headers
      = [("Authorization", "JWT " ++ c._jwt_token)] ∧
    (c.get_contracts a1 a2 a3 a4 a5 a6 a7 a8 resp).2.1.opts.headers
      = [("Authorization", "JWT " ++ c._jwt_token)] ∧
    (c.get_traded_contracts a1 a2 a3 a4 resp).2.1.opts.headers
      = [("Authorization", "JWT " ++ c._jwt_token)] ∧
    (c.get_contract_details cid resp).2.1.opts.headers
      = [("Authorization", "JWT " ++ c._jwt_token)] ∧
    (c.get_contract_position cid resp).2.1.opts.headers
      = [("Authorization", "JWT " ++ c._jwt_token)] ∧
    (c.get_contract_ticker cid a1 a2 resp).2.1.opts.headers
      = [("Authorization", "JWT " ++ c._jwt_token)] ∧
    (c.get_positions a1 a2 resp).2.1.opts.headers
      = [("Authorization", "JWT " ++ c._jwt_token)] ∧
    (c.get_trades_for_position cid resp).2.1.opts.headers
      = [("Authorization", "JWT " ++ c._jwt_token)] ∧
    (c.get_open_orders resp).2.1.opts.headers
      = [("Authorization", "JWT " ++ c._jwt_token)] ∧
    (c.create_order a1 a2 a3 a4 a5 a6 a7 resp).2.1.opts.headers
      = [("Authorization", "JWT " ++ c._jwt_token)] ∧
    (c.delete_all_orders resp).2.1.opts.headers
      = [("Authorization", "JWT " ++ c._jwt_token)] ∧
    (c.delete_single_order mid a1 resp).2.1.opts.headers
      = [("Authorization", "JWT " ++ c._jwt_token)] ∧
    (c.patch_order mid a1 a2 a3 resp).2.1.opts.headers
      = [("Authorization", "JWT " ++ c._jwt_token)] ∧
    (c.get_current_book_state cid resp).2.1.opts.headers
      = [("Authorization", "JWT " ++ c._jwt_token)] :=
  ⟨buildOpts_headers c._jwt_token method data,
   rfl, rfl, rfl, rfl, rfl, rfl, rfl, rfl, rfl, rfl, rfl, rfl, rfl⟩

/-- Claim C8: every call to `_request` sets `allow_redirects` to
`False` on the outgoing request, regardless of HTTP method or endpoint
(shown for a generic method and for every endpoint method). -/
theorem request_no_redirects (c : LedgerX) (method url : String)
    (data : PyVal) (a1 a2 a3 a4 a5 a6 a7 a8 : PyVal) (cid mid : String)
    (resp : HTTPResponse) :
    (c._request method url data resp).2.1.opts.allow_redirects = false ∧
    (c.get_contracts a1 a2 a3 a4 a5 a6 a7 a8 resp).2.1.opts.allow_redirects
      = false ∧
    (c.get_traded_contracts a1 a2 a3 a4 resp).2.1.opts.allow_redirects
      = false ∧
    (c.get_contract_details cid resp).2.1.opts.allow_redirects = false ∧
    (c.get_contract_position cid resp).2.1.opts.allow_redirects = false ∧
    (c.get_contract_ticker cid a1 a2 resp).2.1.opts.allow_redirects = false ∧
    (c.get_positions a1 a2 resp).2.1.opts.allow_redirects = false ∧
    (c.get_trades_for_position cid resp).2.1.opts.allow_redirects = false ∧
    (c.get_open_orders resp).2.1.opts.allow_redirects = false ∧
    (c.create_order a1 a2 a3 a4 a5 a6 a7 resp).2.1.opts.allow_redirects
      = false ∧
    (c.delete_all_orders resp).2.1.opts.allow_redirects = false ∧
    (c.delete_single_order mid a1 resp).2.1.opts.allow_redirects = false ∧
    (c.patch_order mid a1 a2 a3 resp).2.1.opts.allow_redirects = false ∧
    (c.get_current_book_state cid resp).2.1.opts.allow_redirects = false :=
  ⟨buildOpts_allow_redirects c._jwt_token method data,
   rfl, rfl, rfl, rfl, rfl, rfl, rfl, rfl, rfl, rfl, rfl, rfl, rfl⟩

/-- Claim C9: neither `_request` nor any endpoint method mutates the
client: the client object coming out of any call is the very one that
went in, so `_jwt_token` and `_session` stay the objects bound at
construction after any sequence of calls. -/
theorem client_state_unchanged (c : LedgerX) (method url : String)
    (data : PyVal) (a1 a2 a3 a4 a5 a6 a7 a8 : PyVal) (cid mid : String)
    (resp : HTTPResponse) :
    (c._request method url data resp).1 = c ∧
    (c.get_contracts a1 a2 a3 a4 a5 a6 a7 a8 resp).1 = c ∧
    (c.get_traded_contracts a1 a2 a3 a4 resp).1 = c ∧
    (c.get_contract_details cid resp).1 = c ∧
    (c.get_contract_position cid resp).1 = c ∧
    (c.get_contract_ticker cid a1 a2 resp).1 = c ∧
    (c.get_positions a1 a2 resp).1 = c ∧
    (c.get_trades_for_position cid resp).1 = c ∧
    (c.get_open_orders resp).1 = c ∧
    (c.create_order a1 a2 a3 a4 a5 a6 a7 resp).1 = c ∧
    (c.delete_all_orders resp).1 = c ∧
    (c.delete_single_order mid a1 resp).1 = c ∧
    (c.patch_order mid a1 a2 a3 resp).1 = c ∧
    (c.get_current_book_state cid resp).1 = c :=
  ⟨rfl, rfl, rfl, rfl, rfl, rfl, rfl, rfl, rfl, rfl, rfl, rfl, rfl, rfl⟩

/-- Claim C10: `patch_order(mid, contract_id, price, size)` issues its
request with method `"DELETE"` to `/api/orders/{mid}/edit`, so by the
dispatcher's verb rule the three-key replacement mapping goes into the
query-string parameters and never into a JSON body. -/
theorem patch_order_delete_query (c : LedgerX) (mid : String)
    (contract_id price size : PyVal) (resp : HTTPResponse) :
    (c.patch_order mid contract_id price size resp).2.1.method = "DELETE" ∧
    (c.patch_order mid contract_id price size resp).2.1.url
      = "https://trade.ledgerx.com/api/orders/" ++ mid ++ "/edit" ∧
    (c.patch_order mid contract_id price size resp).2.1.opts.params
      = Option.some (PyVal.dict
          [("contract_id", contract_id), ("price", price), ("size", size)]) ∧
    (c.patch_order mid contract_id price size resp).2.1.opts.json
      = Option.none :=
  ⟨rfl, rfl, rfl, rfl⟩
